import Mathlib

/-!
Shallow embedding of `opentelemetry-sdk/src/trace/provider.rs`.

The provider owns an ordered list of span processors plus a configuration,
shared across cheaply cloned handles through an `Arc`, together with a
shared `AtomicBool` shutdown flag.  The heap of atomic flag cells is
modelled as a function `Nat → Bool`; every handle stores the index of its
cell, and cloning a handle copies the index (so clones alias the same
cell).  Processors are external trait objects: the provider only observes
the outcomes of their `shutdown()` and `force_flush()` calls, so a
processor is modelled by those two outcomes plus the resource pushed into
it at build time.
-/

namespace OtelTraceProvider

/-- Model of `TraceError` as used in `provider.rs`: only the
`Other(message)` constructor appears there. -/
inductive TraceError where
  | other (msg : String) : TraceError
  deriving DecidableEq, Repr

/-- Model of `TraceResult` from the API crate. -/
abbrev TraceResult (α : Type) := Except TraceError α

/-- Resource attribute content; equality mirrors `PartialEq` on
`Resource`. -/
structure Resource where
  attrs : List (String × String)
  deriving DecidableEq, Repr

/-- Model of `Resource::empty()`. -/
def Resource.empty : Resource := ⟨[]⟩

/-- Model of `Cow<'static, Resource>` as stored in `Config.resource`. -/
inductive CowResource where
  | owned (r : Resource)
  | borrowed (r : Resource)
  deriving DecidableEq, Repr

/-- Model of `Cow::as_ref`: the underlying resource content. -/
def CowResource.as_ref : CowResource → Resource
  | .owned r => r
  | .borrowed r => r

/-- External collaborator: samplers are opaque to `provider.rs`; only the
constructors the file mentions are modelled. -/
inductive Sampler where
  | alwaysOn
  | alwaysOff
  | parentBased (root : Sampler)
  deriving DecidableEq, Repr

/-- External collaborator: the default random id generator. -/
inductive IdGenerator where
  | random
  deriving DecidableEq, Repr

/-- External collaborator: span limits, opaque to `provider.rs`. -/
inductive SpanLimits where
  | default
  deriving DecidableEq, Repr

/-- Model of `crate::trace::Config`. -/
structure Config where
  sampler : Sampler
  id_generator : IdGenerator
  span_limits : SpanLimits
  resource : CowResource
  deriving DecidableEq, Repr

/-- External collaborator behind the `SpanProcessor` trait object:
`provider.rs` only observes the outcomes of `shutdown()` and
`force_flush()` and pushes a resource via `set_resource`, so each is
modelled as data. -/
structure SpanProcessor where
  shutdown_result : TraceResult Unit
  force_flush_result : TraceResult Unit
  resource : Option Resource := none
  deriving Repr

/-- Model of `TracerProviderInner`: the processor list and config owned
behind the `Arc`. -/
structure TracerProviderInner where
  processors : List SpanProcessor
  config : Config
  deriving Repr

/-- The heap of `AtomicBool` cells.  Each provider handle stores an index
into this heap; clones of a handle share the index. -/
abbrev SharedFlags := Nat → Bool

/-- Model of `AtomicBool::compare_exchange(false, true, ..)`: succeeds iff
the cell currently holds `false`, in which case it is set to `true`.
Returns the new heap and whether the exchange succeeded. -/
def casFalseTrue (w : SharedFlags) (i : Nat) : SharedFlags × Bool :=
  if w i then (w, false)
  else ((fun j => if j = i then true else w j), true)

/-- Model of `TracerProvider`: an `Arc` to the inner state plus an `Arc` to
the shared shutdown flag cell, the latter modelled by its heap index. -/
structure TracerProvider where
  inner : TracerProviderInner
  flagRef : Nat
  deriving Repr

/-- Model of `Clone` for `TracerProvider`: an `Arc` clone aliases the same
inner state and the same flag cell, so the clone is the same handle
value. -/
def TracerProvider.clone (p : TracerProvider) : TracerProvider := p

/-- Model of `TracerProvider::new`: wraps the inner state with a freshly
allocated flag cell (the caller names the fresh heap index). -/
def TracerProvider.new (inner : TracerProviderInner) (freshRef : Nat) :
    TracerProvider :=
  { inner := inner, flagRef := freshRef }

/-- Heap effect of allocating the fresh `AtomicBool::new(false)` cell named
by `freshRef` in `TracerProvider::new`. -/
def allocFlag (w : SharedFlags) (freshRef : Nat) : SharedFlags :=
  fun j => if j = freshRef then false else w j

/-- Model of `TracerProvider::span_processors`. -/
def TracerProvider.span_processors (p : TracerProvider) : List SpanProcessor :=
  p.inner.processors

/-- Model of `TracerProvider::config`. -/
def TracerProvider.config (p : TracerProvider) : Config :=
  p.inner.config

/-- Model of `TracerProvider::is_shutdown`: a load of the shared flag. -/
def TracerProvider.is_shutdown (p : TracerProvider) (w : SharedFlags) : Bool :=
  w p.flagRef

/-- Events of a flush execution: flush of processor `i` starts or
finishes. -/
inductive FlushEvent where
  | start (i : Nat)
  | finish (i : Nat)
  deriving DecidableEq, Repr

/-- Model of `stream::iter(processors).then(force_flush).collect()`: the
`StreamExt::then` combinator resolves the current flush future completely
before pulling the next processor from the stream, so the event trace is
start 0, finish 0, start 1, finish 1, ... and the results are collected in
collection order.  Returns the event trace and the result list. -/
def thenCollect : List SpanProcessor → Nat → List FlushEvent × List (TraceResult Unit)
  | [], _ => ([], [])
  | p :: rest, i =>
    let tail := thenCollect rest (i + 1)
    (FlushEvent.start i :: FlushEvent.finish i :: tail.1,
     p.force_flush_result :: tail.2)

/-- Model of `TracerProvider::force_flush`: the collected per-processor
results. -/
def TracerProvider.force_flush (p : TracerProvider) : List (TraceResult Unit) :=
  (thenCollect p.span_processors 0).2

/-- The flush start/finish event trace produced by
`TracerProvider::force_flush`. -/
def TracerProvider.force_flush_events (p : TracerProvider) : List FlushEvent :=
  (thenCollect p.span_processors 0).1

/-- Errors collected from the processors' `shutdown()` outcomes, in
collection order (the `errs` vector of the winner path). -/
def shutdownErrors (ps : List SpanProcessor) : List TraceError :=
  ps.filterMap (fun p =>
    match p.shutdown_result with
    | Except.ok _ => none
    | Except.error e => some e)

/-- Message carried by a `TraceError`. -/
def TraceError.message : TraceError → String
  | .other m => m

/-- Model of the aggregated `TraceError::Other` built from the debug
formatting of the collected error vector: a single error describing every
failure. -/
def aggregateErrors (errs : List TraceError) : TraceError :=
  .other (toString (errs.map TraceError.message))

/-- The distinct error returned when the provider is already shut down. -/
def alreadyShutDown : TraceError :=
  .other "tracer provider already shut down"

/-- Model of `TracerProvider::shutdown`: compare-and-exchange the shared
flag from false to true; the winner invokes `shutdown()` on every
processor sequentially in collection order, collecting errors; a loser
returns the already-shut-down error at once and invokes nothing.  Returns
the new flag heap, the result, and the indices of the processors whose
`shutdown()` was invoked, in invocation order. -/
def TracerProvider.shutdown (p : TracerProvider) (w : SharedFlags) :
    SharedFlags × TraceResult Unit × List Nat :=
  let cas := casFalseTrue w p.flagRef
  if cas.2 then
    let errs := shutdownErrors p.inner.processors
    (cas.1,
     if errs.isEmpty then Except.ok () else Except.error (aggregateErrors errs),
     List.range p.inner.processors.length)
  else
    (cas.1, Except.error alreadyShutDown, [])

/-- Index of the flag cell of the lazily initialized
`NOOP_TRACER_PROVIDER`; its cell holds `true` from initialization
(`AtomicBool::new(true)`) on. -/
def noopFlagRef : Nat := 0

/-- Model of the `NOOP_TRACER_PROVIDER` singleton: empty processor list,
the config written out in the source, and the permanently-true flag
cell. -/
def NOOP_TRACER_PROVIDER : TracerProvider :=
  { inner :=
      { processors := []
        config :=
          { sampler := Sampler.parentBased Sampler.alwaysOn
            id_generator := IdGenerator.random
            span_limits := SpanLimits.default
            resource := CowResource.owned Resource.empty } }
    flagRef := noopFlagRef }

/-- Model of `InstrumentationLibrary` as assembled by the tracer builder
chain. -/
structure InstrumentationLibrary where
  name : String
  version : Option String := none
  schema_url : Option String := none
  attributes : List (String × String) := []
  deriving DecidableEq, Repr

/-- Model of `Tracer::new(library, provider)`: the tracer stores the
provider it was bound to at creation time. -/
structure Tracer where
  library : InstrumentationLibrary
  provider : TracerProvider
  deriving Repr

/-- Model of `library_tracer`: if the shared flag is set the tracer is
bound to a clone of the no-op singleton, otherwise to a clone of this
handle. -/
def TracerProvider.library_tracer (p : TracerProvider) (w : SharedFlags)
    (library : InstrumentationLibrary) : Tracer :=
  if w p.flagRef then
    { library := library, provider := NOOP_TRACER_PROVIDER.clone }
  else
    { library := library, provider := p.clone }

/-- Model of `DEFAULT_COMPONENT_NAME`. -/
def DEFAULT_COMPONENT_NAME : String := "rust.opentelemetry.io/sdk/tracer"

/-- Model of `versioned_tracer`: an empty name is replaced by
`DEFAULT_COMPONENT_NAME`; the `tracer_builder` chain of the API crate then
assembles an `InstrumentationLibrary` from the given fields and ends in
`library_tracer`. -/
def TracerProvider.versioned_tracer (p : TracerProvider) (w : SharedFlags)
    (name : String) (version : Option String) (schema_url : Option String)
    (attributes : Option (List (String × String))) : Tracer :=
  let component_name := if name = "" then DEFAULT_COMPONENT_NAME else name
  p.library_tracer w
    { name := component_name
      version := version
      schema_url := schema_url
      attributes := attributes.getD [] }

/-- Loop body of the future spawned by `Drop for TracerProviderInner`:
shuts down each processor in order; an error is funneled to
`global::handle_error`, modelled as appending it to the process-wide error
sink.  Returns the final sink and the indices (from `i`) of the processors
whose `shutdown()` was invoked. -/
def dropTask : List SpanProcessor → Nat → List TraceError → List TraceError × List Nat
  | [], _, sink => (sink, [])
  | p :: rest, i, sink =>
    let sink1 :=
      match p.shutdown_result with
      | Except.ok _ => sink
      | Except.error e => sink ++ [e]
    let tail := dropTask rest (i + 1) sink1
    (tail.1, i :: tail.2)

/-- The caller-visible outcome of `Drop for TracerProviderInner`: drop
returns `()` to the dropping caller without awaiting anything, after
moving (`mem::take`) the processors into the spawned fire-and-forget
future. -/
structure DropOutcome where
  caller_result : Unit
  spawned : List SpanProcessor

/-- Model of `Drop for TracerProviderInner`: take the processors, hand
them to the spawned future, return immediately.  The second component is
the emptied inner state left behind. -/
def TracerProviderInner.dropImpl (inner : TracerProviderInner) :
    DropOutcome × TracerProviderInner :=
  ({ caller_result := (), spawned := inner.processors },
   { inner with processors := [] })

/-- Successive explicit `shutdown()` calls, each issued through some
handle, threading the shared flag heap.  Returns per-call (result, invoked
processor indices) and the final heap. -/
def shutdownCalls : List TracerProvider → SharedFlags →
    List (TraceResult Unit × List Nat) × SharedFlags
  | [], w => ([], w)
  | q :: qs, w =>
    let s := q.shutdown w
    let tail := shutdownCalls qs s.1
    ((s.2.1, s.2.2) :: tail.1, tail.2)

/-- Total number of `shutdown()` invocations processor `i` receives over a
provider lifetime consisting of `k` explicit `shutdown()` calls through
clones followed by the drop of the last handle (which runs
`TracerProviderInner.dropImpl` and then the spawned `dropTask`). -/
def processorShutdownCalls (p : TracerProvider) (w : SharedFlags) (k : Nat)
    (i : Nat) : Nat :=
  let explicit :=
    (((shutdownCalls (List.replicate k p.clone) w).1.map Prod.snd).flatten)
  let dropped := (dropTask (p.inner.dropImpl).1.spawned 0 []).2
  explicit.count i + dropped.count i

/-- Operations that can be performed through existing provider handles;
`apply` is their effect on the shared flag heap.  Only `shutdown` writes a
flag (via compare-and-exchange); flush, flag reads, tracer creation, clone
and drop never write it.  (`Builder::build` allocates a fresh cell and so
never touches the cell of an existing handle.) -/
inductive ProviderOp where
  | shutdownOp (q : TracerProvider)
  | forceFlushOp (q : TracerProvider)
  | isShutdownRead (q : TracerProvider)
  | createTracer (q : TracerProvider) (lib : InstrumentationLibrary)
  | cloneOp (q : TracerProvider)
  | dropOp (q : TracerProvider)

/-- Effect of a provider operation on the flag heap. -/
def ProviderOp.apply : ProviderOp → SharedFlags → SharedFlags
  | .shutdownOp q, w => (q.shutdown w).1
  | .forceFlushOp _, w => w
  | .isShutdownRead _, w => w
  | .createTracer _ _, w => w
  | .cloneOp _, w => w
  | .dropOp _, w => w

/-- Effect of a sequence of provider operations on the flag heap. -/
def applyOps : List ProviderOp → SharedFlags → SharedFlags
  | [], w => w
  | op :: ops, w => applyOps ops (op.apply w)

/-- A flush event trace is strictly sequential when it is a sequence of
immediately closed start/finish pairs: each flush finishes before the next
one starts, and no two flushes overlap. -/
def isSequential : List FlushEvent → Bool
  | [] => true
  | FlushEvent.start i :: FlushEvent.finish j :: rest => i == j && isSequential rest
  | _ => false

/-- Model of `Builder`. -/
structure Builder where
  processors : List SpanProcessor
  config : Config
  deriving Repr

/-- Model of `Builder::with_span_processor`: appends the processor. -/
def Builder.with_span_processor (b : Builder) (p : SpanProcessor) : Builder :=
  { b with processors := b.processors ++ [p] }

/-- Model of `Builder::with_config`: replaces the configuration. -/
def Builder.with_config (b : Builder) (c : Config) : Builder :=
  { b with config := c }

/-- Model of `Builder::build`, with the process-wide `PROVIDER_RESOURCE`
`OnceCell` passed explicitly as `cache`.  If the config resource is owned,
`try_insert` it: an empty slot stores it and the config thereafter borrows
the stored value; an occupied slot with equal content is reused by-borrow;
differing content keeps the caller's owned value and the slot is
unchanged.  Then `set_resource` pushes the final resource into every
processor, and the inner state is wrapped in a fresh handle
(`freshRef` names its newly allocated flag cell).  Returns the new cache
content and the provider. -/
def Builder.build (b : Builder) (cache : Option Resource) (freshRef : Nat) :
    Option Resource × TracerProvider :=
  let interned : Option Resource × CowResource :=
    match b.config.resource with
    | CowResource.owned r =>
      match cache with
      | none => (some r, CowResource.borrowed r)
      | some prev =>
        if prev = r then (some prev, CowResource.borrowed prev)
        else (some prev, CowResource.owned r)
    | CowResource.borrowed r => (cache, CowResource.borrowed r)
  let config1 : Config := { b.config with resource := interned.2 }
  let processors :=
    b.processors.map (fun p => { p with resource := some interned.2.as_ref })
  (interned.1,
   TracerProvider.new { processors := processors, config := config1 } freshRef)

/-- Fixture: a processor whose shutdown and flush succeed. -/
def okProcessor : SpanProcessor :=
  { shutdown_result := Except.ok (), force_flush_result := Except.ok () }

/-- Fixture: a processor whose shutdown and flush fail. -/
def failProcessor : SpanProcessor :=
  { shutdown_result := Except.error (TraceError.other "cannot export")
    force_flush_result := Except.error (TraceError.other "cannot export") }

/-- Fixture configuration with an owned empty resource. -/
def exConfig : Config :=
  { sampler := Sampler.parentBased Sampler.alwaysOn
    id_generator := IdGenerator.random
    span_limits := SpanLimits.default
    resource := CowResource.owned Resource.empty }

/-- Fixture provider with one succeeding and one failing processor; its
flag cell is index 1 (index 0 is the no-op singleton's cell). -/
def exProvider : TracerProvider :=
  { inner := { processors := [okProcessor, failProcessor], config := exConfig }
    flagRef := 1 }

/-- Fixture heap: only the no-op singleton's cell is set. -/
def exHeap : SharedFlags := fun j => j == 0

/-- Fixture heap in which the no-op cell and cell 2 are set. -/
def exShutHeap : SharedFlags := fun j => j == 0 || j == 2

/-- Fixture provider already shut down under `exShutHeap`. -/
def exShutProvider : TracerProvider :=
  { inner := { processors := [okProcessor, failProcessor], config := exConfig }
    flagRef := 2 }

/-- Fixture instrumentation library. -/
def exLib : InstrumentationLibrary := { name := "test" }

/-- Fixture builder carrying an owned empty resource. -/
def exBuilder : Builder :=
  { processors := [okProcessor], config := exConfig }

/-- Fixture resource with content differing from `Resource.empty`. -/
def exOtherResource : Resource := ⟨[("service.name", "test")]⟩

/-! Helper lemmas about the embedded operations. -/

lemma thenCollect_snd (ps : List SpanProcessor) (i : Nat) :
    (thenCollect ps i).2 = ps.map (fun q => q.force_flush_result) := by
  induction ps generalizing i with
  | nil => rfl
  | cons p rest ih => simp [thenCollect, ih]

lemma thenCollect_fst_sequential (ps : List SpanProcessor) (i : Nat) :
    isSequential (thenCollect ps i).1 = true := by
  induction ps generalizing i with
  | nil => rfl
  | cons p rest ih => simp [thenCollect, isSequential, ih]

lemma thenCollect_fst_length (ps : List SpanProcessor) (i : Nat) :
    (thenCollect ps i).1.length = 2 * ps.length := by
  induction ps generalizing i with
  | nil => rfl
  | cons p rest ih =>
    simp [thenCollect, ih]
    omega

lemma casFalseTrue_preserves_true (w : SharedFlags) (i j : Nat)
    (h : w j = true) : (casFalseTrue w i).1 j = true := by
  unfold casFalseTrue
  by_cases hw : w i = true
  · simp [hw, h]
  · simp only [Bool.not_eq_true] at hw
    simp only [hw, Bool.false_eq_true, if_false]
    by_cases hij : j = i <;> simp [hij, h]

lemma shutdown_fst (p : TracerProvider) (w : SharedFlags) :
    (p.shutdown w).1 = (casFalseTrue w p.flagRef).1 := by
  unfold TracerProvider.shutdown
  by_cases h : (casFalseTrue w p.flagRef).2 = true <;> simp [h]

lemma shutdown_flag_after (p : TracerProvider) (w : SharedFlags) :
    (p.shutdown w).1 p.flagRef = true := by
  rw [shutdown_fst]
  unfold casFalseTrue
  by_cases h : w p.flagRef = true <;> simp [h]

lemma shutdown_heap_mono (p : TracerProvider) (w : SharedFlags) (j : Nat)
    (h : w j = true) : (p.shutdown w).1 j = true := by
  rw [shutdown_fst]
  exact casFalseTrue_preserves_true w p.flagRef j h

lemma shutdown_winner (p : TracerProvider) (w : SharedFlags)
    (h : w p.flagRef = false) :
    (p.shutdown w).2 =
      ((if (shutdownErrors p.inner.processors).isEmpty then Except.ok ()
        else Except.error (aggregateErrors (shutdownErrors p.inner.processors))),
       List.range p.inner.processors.length) := by
  unfold TracerProvider.shutdown casFalseTrue
  simp [h]

lemma shutdown_loser (p : TracerProvider) (w : SharedFlags)
    (h : w p.flagRef = true) :
    (p.shutdown w).2 = (Except.error alreadyShutDown, ([] : List Nat)) ∧
    (p.shutdown w).1 = w := by
  unfold TracerProvider.shutdown casFalseTrue
  simp [h]

lemma shutdownCalls_all_losers (qs : List TracerProvider) (w : SharedFlags)
    (h : ∀ q ∈ qs, w q.flagRef = true) :
    shutdownCalls qs w =
      (qs.map (fun _ => (Except.error alreadyShutDown, ([] : List Nat))), w) := by
  induction qs with
  | nil => rfl
  | cons q rest ih =>
    have hq : w q.flagRef = true := h q (by simp)
    obtain ⟨h1, h2⟩ := shutdown_loser q w hq
    simp only [shutdownCalls]
    rw [h2, ih (fun x hx => h x (by simp [hx]))]
    simp [h1]

lemma dropTask_spec (ps : List SpanProcessor) (i : Nat) (sink : List TraceError) :
    dropTask ps i sink = (sink ++ shutdownErrors ps, List.range' i ps.length) := by
  induction ps generalizing i sink with
  | nil => simp [dropTask, shutdownErrors, List.range']
  | cons p rest ih =>
    simp only [dropTask, shutdownErrors, List.filterMap_cons, List.length_cons,
      List.range']
    cases hres : p.shutdown_result with
    | ok v => simp [ih, shutdownErrors]
    | error e => simp [ih, shutdownErrors]

lemma applyOp_mono (op : ProviderOp) (w : SharedFlags) (j : Nat)
    (h : w j = true) : op.apply w j = true := by
  cases op with
  | shutdownOp q => exact shutdown_heap_mono q w j h
  | forceFlushOp q => exact h
  | isShutdownRead q => exact h
  | createTracer q lib => exact h
  | cloneOp q => exact h
  | dropOp q => exact h

lemma applyOps_mono (ops : List ProviderOp) (w : SharedFlags) (j : Nat)
    (h : w j = true) : applyOps ops w j = true := by
  induction ops generalizing w with
  | nil => exact h
  | cons op rest ih => exact ih (op.apply w) (applyOp_mono op w j h)

lemma explicit_invocations (p : TracerProvider) (w : SharedFlags) (k : Nat) :
    (((shutdownCalls (List.replicate k p.clone) w).1.map Prod.snd).flatten) =
      if k = 0 then []
      else if w p.flagRef then [] else List.range p.inner.processors.length := by
  simp only [TracerProvider.clone]
  cases k with
  | zero => rfl
  | succ k =>
    simp only [Nat.succ_ne_zero, if_false, List.replicate_succ]
    by_cases h : w p.flagRef = true
    · have hl := shutdownCalls_all_losers (p :: List.replicate k p) w
        (fun x hx => by
          have hx' : x = p := by
            rcases List.mem_cons.mp hx with h1 | h1
            · exact h1
            · exact List.eq_of_mem_replicate h1
          rw [hx']; exact h)
      rw [hl]
      simp [h]
    · simp only [Bool.not_eq_true] at h
      simp only [h, Bool.false_eq_true, if_false]
      simp only [shutdownCalls]
      have hw := shutdown_winner p w h
      have hafter := shutdown_flag_after p w
      have hl := shutdownCalls_all_losers (List.replicate k p)
        ((p.shutdown w).1)
        (fun x hx => by
          rw [List.eq_of_mem_replicate hx]; exact hafter)
      rw [hl, hw]
      simp

lemma count_range_le_one (n i : Nat) : (List.range n).count i ≤ 1 :=
  List.nodup_iff_count_le_one.mp (List.nodup_range n) i

/-! Claim theorems. -/

/-- C1: for every provider and every nonempty sequence of shutdown calls
through clones of its handle starting from an un-shut-down flag, the first
call flips the flag, invokes `shutdown()` on every processor sequentially
in collection order and returns success if no processor failed or a single
aggregated error describing all failures otherwise; every later call
returns the already-shut-down error and invokes no processor. -/
theorem shutdown_first_wins_then_already_shut_down
    (p q : TracerProvider) (qs : List TracerProvider) (w : SharedFlags)
    (hclones : ∀ x ∈ q :: qs, x = p.clone)
    (hflag : w p.flagRef = false) :
    (shutdownCalls (q :: qs) w).1 =
      ((if (shutdownErrors p.inner.processors).isEmpty then Except.ok ()
        else Except.error (aggregateErrors (shutdownErrors p.inner.processors))),
       List.range p.inner.processors.length) ::
      qs.map (fun _ => (Except.error alreadyShutDown, ([] : List Nat))) := by
  have hq : q = p.clone := hclones q (by simp)
  have hrest : ∀ x ∈ qs, x = p.clone := fun x hx => hclones x (by simp [hx])
  rw [hq]
  simp only [TracerProvider.clone] at hrest ⊢
  simp only [shutdownCalls]
  have hw := shutdown_winner p w hflag
  have hafter := shutdown_flag_after p w
  have hlosers := shutdownCalls_all_losers qs ((p.shutdown w).1)
    (fun x hx => by rw [hrest x hx]; exact hafter)
  rw [hlosers, hw]

/-- Witness for C1 at a concrete provider with one succeeding and one
failing processor and two shutdown calls through clones. -/
theorem shutdown_first_wins_then_already_shut_down_witness :
    (∀ x ∈ [exProvider.clone, exProvider.clone], x = exProvider.clone) ∧
    exHeap exProvider.flagRef = false ∧
    (shutdownCalls [exProvider.clone, exProvider.clone] exHeap).1 =
      ((if (shutdownErrors exProvider.inner.processors).isEmpty then Except.ok ()
        else Except.error
          (aggregateErrors (shutdownErrors exProvider.inner.processors))),
       List.range exProvider.inner.processors.length) ::
      [exProvider.clone].map
        (fun _ => (Except.error alreadyShutDown, ([] : List Nat))) :=
  have hcl : ∀ x ∈ [exProvider.clone, exProvider.clone], x = exProvider.clone :=
    by intro x hx; rcases List.mem_cons.mp hx with h | h
       · exact h
       · exact List.mem_singleton.mp h
  ⟨hcl, rfl,
   shutdown_first_wins_then_already_shut_down exProvider exProvider.clone
     [exProvider.clone] exHeap hcl rfl⟩

/-- C2: for a provider with N processors, `force_flush()` returns exactly
N results, one per processor in collection order, each equal to that
processor's own flush outcome; no short-circuit on failure. -/
theorem force_flush_all_results (p : TracerProvider) :
    p.force_flush = p.inner.processors.map (fun q => q.force_flush_result) ∧
    p.force_flush.length = p.inner.processors.length := by
  have h := thenCollect_snd p.inner.processors 0
  constructor
  · exact h
  · rw [TracerProvider.force_flush, TracerProvider.span_processors, h]
    exact List.length_map _ _

/-- C3: the shared shutdown flag is monotonic: a flag cell holding true
still holds true after any sequence of provider operations, and a clone of
a handle reads the very same flag cell as the original. -/
theorem shutdown_flag_monotonic
    (p : TracerProvider) (ops : List ProviderOp) (w : SharedFlags) (j : Nat)
    (h : w j = true) :
    applyOps ops w j = true ∧
    p.clone.is_shutdown w = p.is_shutdown w ∧
    p.clone.flagRef = p.flagRef ∧
    p.clone.inner = p.inner :=
  ⟨applyOps_mono ops w j h, rfl, rfl, rfl⟩

/-- Witness for C3: the no-op cell stays true across a shutdown of another
handle. -/
theorem shutdown_flag_monotonic_witness :
    exHeap 0 = true ∧
    (applyOps [ProviderOp.shutdownOp exProvider] exHeap 0 = true ∧
     exProvider.clone.is_shutdown exHeap = exProvider.is_shutdown exHeap ∧
     exProvider.clone.flagRef = exProvider.flagRef ∧
     exProvider.clone.inner = exProvider.inner) :=
  ⟨rfl,
   shutdown_flag_monotonic exProvider [ProviderOp.shutdownOp exProvider]
     exHeap 0 rfl⟩

/-- C4 counterexample: over a lifetime with one explicit `shutdown()` call
followed by the drop of the last handle, processor 0 of the fixture
provider receives two `shutdown()` invocations, not at most one: the drop
teardown re-invokes processors already shut down explicitly. -/
theorem processor_shutdown_at_most_once_counterexample :
    processorShutdownCalls exProvider exHeap 1 0 = 2 ∧
    ¬ processorShutdownCalls exProvider exHeap 1 0 ≤ 1 := by
  constructor <;> decide

/-- C4 amended: each processor receives at most one `shutdown()`
invocation from the explicit path and at most one from the drop teardown,
hence at most two in total over the provider's lifetime. -/
theorem processor_shutdown_at_most_twice
    (p : TracerProvider) (w : SharedFlags) (k i : Nat) :
    ((((shutdownCalls (List.replicate k p.clone) w).1.map Prod.snd).flatten).count i
        ≤ 1) ∧
    (((dropTask (p.inner.dropImpl).1.spawned 0 []).2).count i ≤ 1) ∧
    processorShutdownCalls p w k i ≤ 2 := by
  have hex :
      ((((shutdownCalls (List.replicate k p.clone) w).1.map Prod.snd).flatten).count i
        ≤ 1) := by
    rw [explicit_invocations]
    by_cases hk : k = 0
    · simp [hk]
    · by_cases hw : w p.flagRef = true
      · simp [hk, hw]
      · simp only [Bool.not_eq_true] at hw
        simp only [hk, hw, Bool.false_eq_true, if_false]
        exact count_range_le_one _ i
  have hdrop : (((dropTask (p.inner.dropImpl).1.spawned 0 []).2).count i ≤ 1) := by
    rw [dropTask_spec]
    rw [show List.range' 0 (p.inner.dropImpl).1.spawned.length =
        List.range (p.inner.dropImpl).1.spawned.length from
      (List.range_eq_range' _).symm]
    exact count_range_le_one _ i
  refine ⟨hex, hdrop, ?_⟩
  have : processorShutdownCalls p w k i =
      ((((shutdownCalls (List.replicate k p.clone) w).1.map Prod.snd).flatten).count i)
      + (((dropTask (p.inner.dropImpl).1.spawned 0 []).2).count i) := rfl
  omega

/-- C5: building with an owned resource: an empty cache slot stores the
resource and the config borrows the cached value; an occupied slot with
equal content is reused by-borrow; differing content leaves the slot
untouched and the provider keeps its own owned copy. -/
theorem build_resource_interning
    (b : Builder) (r prev : Resource) (f : Nat)
    (h : b.config.resource = CowResource.owned r) :
    ((b.build none f).1 = some r ∧
     (b.build none f).2.config.resource = CowResource.borrowed r) ∧
    ((b.build (some prev) f).1 = some prev ∧
     (b.build (some prev) f).2.config.resource =
       (if prev = r then CowResource.borrowed prev else CowResource.owned r)) := by
  unfold Builder.build TracerProvider.config TracerProvider.new
  rw [h]
  by_cases hpr : prev = r <;> simp [hpr]

/-- Witness for C5: building the fixture builder against an empty cache
and against a cache holding a different resource. -/
theorem build_resource_interning_witness :
    exBuilder.config.resource = CowResource.owned Resource.empty ∧
    (((exBuilder.build none 2).1 = some Resource.empty ∧
      (exBuilder.build none 2).2.config.resource =
        CowResource.borrowed Resource.empty) ∧
     ((exBuilder.build (some exOtherResource) 2).1 = some exOtherResource ∧
      (exBuilder.build (some exOtherResource) 2).2.config.resource =
        (if exOtherResource = Resource.empty then
           CowResource.borrowed exOtherResource
         else CowResource.owned Resource.empty))) :=
  ⟨rfl, build_resource_interning exBuilder Resource.empty exOtherResource 2 rfl⟩

/-- C6: tracer creation through a shut-down handle binds the tracer to the
no-op singleton (empty processors, flag true now and after any further
operations); through a live handle it binds to a clone sharing the same
flag cell and inner state.  The binding is decided when the tracer is
created and stored in the tracer. -/
theorem library_tracer_binding
    (p : TracerProvider) (w : SharedFlags) (lib : InstrumentationLibrary)
    (ops : List ProviderOp)
    (hnoop : w noopFlagRef = true) :
    (p.library_tracer w lib).provider =
      (if p.is_shutdown w = true then NOOP_TRACER_PROVIDER else p.clone) ∧
    (p.library_tracer w lib).library = lib ∧
    NOOP_TRACER_PROVIDER.span_processors = [] ∧
    NOOP_TRACER_PROVIDER.is_shutdown w = true ∧
    NOOP_TRACER_PROVIDER.is_shutdown (applyOps ops w) = true ∧
    p.clone.flagRef = p.flagRef ∧ p.clone.inner = p.inner := by
  refine ⟨?_, ?_, rfl, hnoop, applyOps_mono ops w noopFlagRef hnoop, rfl, rfl⟩
  · unfold TracerProvider.library_tracer TracerProvider.is_shutdown
      TracerProvider.clone
    by_cases h : w p.flagRef = true <;> simp [h]
  · unfold TracerProvider.library_tracer
    by_cases h : w p.flagRef = true <;> simp [h]

/-- Witness for C6 at a shut-down fixture provider. -/
theorem library_tracer_binding_witness :
    exShutHeap noopFlagRef = true ∧
    ((exShutProvider.library_tracer exShutHeap exLib).provider =
      (if exShutProvider.is_shutdown exShutHeap = true then NOOP_TRACER_PROVIDER
       else exShutProvider.clone) ∧
     (exShutProvider.library_tracer exShutHeap exLib).library = exLib ∧
     NOOP_TRACER_PROVIDER.span_processors = [] ∧
     NOOP_TRACER_PROVIDER.is_shutdown exShutHeap = true ∧
     NOOP_TRACER_PROVIDER.is_shutdown (applyOps [] exShutHeap) = true ∧
     exShutProvider.clone.flagRef = exShutProvider.flagRef ∧
     exShutProvider.clone.inner = exShutProvider.inner) :=
  ⟨rfl, library_tracer_binding exShutProvider exShutHeap exLib [] rfl⟩

/-- C7 counterexample: on a concrete two-processor provider the flush
event trace produced by the stream then-combinator is strictly sequential:
processor 1's flush starts only after processor 0's has finished, so the
flushes do not run concurrently. -/
theorem force_flush_not_concurrent_counterexample :
    isSequential (TracerProvider.force_flush_events exProvider) = true ∧
    TracerProvider.force_flush_events exProvider =
      [FlushEvent.start 0, FlushEvent.finish 0,
       FlushEvent.start 1, FlushEvent.finish 1] := by
  constructor <;> rfl

/-- C7 amended: `force_flush()` runs the processors' flush operations
sequentially in collection order — each flush resolves before the next
starts — still suspending until every flush has resolved and returning one
result per processor. -/
theorem force_flush_sequential (p : TracerProvider) :
    isSequential p.force_flush_events = true ∧
    p.force_flush_events.length = 2 * p.inner.processors.length ∧
    p.force_flush.length = p.inner.processors.length := by
  refine ⟨thenCollect_fst_sequential p.inner.processors 0,
    thenCollect_fst_length p.inner.processors 0, ?_⟩
  rw [TracerProvider.force_flush, TracerProvider.span_processors,
    thenCollect_snd]
  exact List.length_map _ _

/-- C8: the drop-triggered teardown returns only `()` to the dropping
caller, moves every processor into the spawned task, and that task funnels
exactly the failing processors' errors to the process-wide sink while
invoking `shutdown()` once on every processor — no error is ever returned
to a caller. -/
theorem drop_errors_to_sink
    (inner : TracerProviderInner) (sink : List TraceError) :
    (inner.dropImpl).1.caller_result = () ∧
    (inner.dropImpl).1.spawned = inner.processors ∧
    (dropTask (inner.dropImpl).1.spawned 0 sink).1 =
      sink ++ shutdownErrors inner.processors ∧
    (dropTask (inner.dropImpl).1.spawned 0 sink).2 =
      List.range' 0 inner.processors.length := by
  refine ⟨rfl, rfl, ?_, ?_⟩ <;> rw [dropTask_spec] <;> rfl

/-- C9: `versioned_tracer` substitutes the fixed default component name
for an empty name and uses a non-empty name unchanged. -/
theorem versioned_tracer_component_name
    (p : TracerProvider) (w : SharedFlags) (name : String)
    (version schema_url : Option String)
    (attributes : Option (List (String × String))) :
    (p.versioned_tracer w name version schema_url attributes).library.name =
      (if name = "" then DEFAULT_COMPONENT_NAME else name) := by
  unfold TracerProvider.versioned_tracer TracerProvider.library_tracer
  by_cases h : w p.flagRef = true <;> simp [h]

/-- C10: when the winning shutdown call returns an aggregated processor
error, the shared flag is nevertheless true afterwards; any clone's next
shutdown call returns the already-shut-down error, invokes no processor,
and leaves the heap unchanged, so the failure is not recoverable through
the handle. -/
theorem failed_shutdown_not_recoverable
    (p q : TracerProvider) (w : SharedFlags)
    (hflag : w p.flagRef = false)
    (herr : shutdownErrors p.inner.processors ≠ [])
    (hq : q = p.clone) :
    (p.shutdown w).2.1 =
      Except.error (aggregateErrors (shutdownErrors p.inner.processors)) ∧
    (p.shutdown w).1 p.flagRef = true ∧
    (q.shutdown ((p.shutdown w).1)).2 =
      (Except.error alreadyShutDown, ([] : List Nat)) ∧
    (q.shutdown ((p.shutdown w).1)).1 = (p.shutdown w).1 := by
  rw [hq]
  simp only [TracerProvider.clone]
  have hafter := shutdown_flag_after p w
  obtain ⟨h1, h2⟩ := shutdown_loser p ((p.shutdown w).1) hafter
  refine ⟨?_, hafter, h1, h2⟩
  have hw := shutdown_winner p w hflag
  rw [hw]
  simp [List.isEmpty_iff, herr]

/-- Witness for C10 at the fixture provider whose second processor fails
to shut down. -/
theorem failed_shutdown_not_recoverable_witness :
    exHeap exProvider.flagRef = false ∧
    shutdownErrors exProvider.inner.processors ≠ [] ∧
    exProvider.clone = exProvider.clone ∧
    ((exProvider.shutdown exHeap).2.1 =
      Except.error (aggregateErrors (shutdownErrors exProvider.inner.processors)) ∧
     (exProvider.shutdown exHeap).1 exProvider.flagRef = true ∧
     (exProvider.clone.shutdown ((exProvider.shutdown exHeap).1)).2 =
       (Except.error alreadyShutDown, ([] : List Nat)) ∧
     (exProvider.clone.shutdown ((exProvider.shutdown exHeap).1)).1 =
       (exProvider.shutdown exHeap).1) :=
  ⟨rfl, by decide, rfl,
   failed_shutdown_not_recoverable exProvider exProvider.clone exHeap rfl
     (by decide) rfl⟩

end OtelTraceProvider
